import Mathlib

/-!
Shallow embedding of `trino/sqlalchemy/dialect.py` (the `TrinoDialect` class
of the trino-python-client repository) and proofs about it.

Conventions of the embedding:
* Python optional values become `Option`; Python truthiness of strings,
  optional strings and optional ints is modelled explicitly (`truthyS`,
  `truthyN`, `pyOrOpt`, `pyOrStr`).
* Python `dict` objects used as keyword-argument maps become association
  lists with in-place overwriting assignment (`setKV`) and lookup (`getKV`).
* Fallible Python code returns `Except PyErr`.
* The external DBAPI connection is an oracle (`Connection.execute`); every
  metadata method additionally returns the list of queries it executed, so
  that "executes no query" is a provable statement.
* `urllib.parse.unquote_plus` and `str.split("/")` (external Python runtime
  functions applied by the source) are modelled bytewise / charwise below;
  `json.loads` is kept as an explicit parameter of `create_connect_args`
  since the JSON parser is an external collaborator whose output the dialect
  never inspects.
-/

set_option maxRecDepth 16384

/-- Python exceptions raised (or propagated) by the dialect code. -/
inductive PyErr where
  | valueError (msg : String)
  | noSuchTableError (msg : String)
  | programmingError (msg : String)
  | typeError (msg : String)
deriving DecidableEq

/-- Python runtime values appearing in result rows and returned dictionaries. -/
inductive PyVal where
  | none
  | str (s : String)
  | int (n : Int)
  | bool (b : Bool)
  | list (xs : List PyVal)

/-- JSON values produced by the external `json.loads`; numbers are kept as
their source lexemes since the dialect never inspects them. -/
inductive PyJson where
  | null
  | bool (b : Bool)
  | num (lexeme : String)
  | str (s : String)
  | arr (xs : List PyJson)
  | obj (fields : List (String × PyJson))

/-- Authentication objects constructed by `create_connect_args`
(`trino.auth.BasicAuthentication` and friends; external collaborators,
modelled by their constructor arguments). -/
inductive Auth where
  | basic (user pass : String)
  | jwt (token : String)
  | certificate (cert key : String)
  | oauth2

/-- Values stored in the keyword-argument dictionary built by
`create_connect_args`. -/
inductive ConnectArg where
  | pyNone
  | str (s : String)
  | nat (n : Nat)
  | auth (a : Auth)
  | jsonVal (j : PyJson)
  | tuples (ts : List (List PyJson))

/-- The relevant fields of `sqlalchemy.engine.url.URL`. The query mapping is
an association list of string keys to string values. -/
structure URL where
  host : Option String
  port : Option Nat
  username : Option String
  password : Option String
  database : Option String
  query : List (String × String)

/-- Keyword-argument dictionary (`kwargs` in `create_connect_args`). -/
abbrev Kwargs := List (String × ConnectArg)

/-- Lookup in an association list (Python `d[k]` / `k in d`). -/
def getKV : Kwargs → String → Option ConnectArg
  | [], _ => Option.none
  | (k', v) :: rest, k => if k' = k then some v else getKV rest k

/-- Assignment `d[k] = v` on a Python dict: overwrite in place when the key
exists, append otherwise. -/
def setKV : Kwargs → String → ConnectArg → Kwargs
  | [], k, v => [(k, v)]
  | (k', v') :: rest, k, v =>
      if k' = k then (k, v) :: rest else (k', v') :: setKV rest k v

/-- Lookup of a key of the URL query mapping. -/
def qget (q : List (String × String)) (k : String) : Option String :=
  match q with
  | [] => Option.none
  | (k', v) :: rest => if k' = k then some v else qget rest k

/-- Python truthiness of an optional string: `None` and `""` are falsy. -/
def truthyS : Option String → Bool
  | Option.none => false
  | some s => s != ""

/-- Python truthiness of an optional int: `None` and `0` are falsy. -/
def truthyN : Option Nat → Bool
  | Option.none => false
  | some n => n != 0

/-- Python `a or b` on two optional strings. -/
def pyOrOpt : Option String → Option String → Option String
  | some s, d => if s = "" then d else some s
  | Option.none, d => d

/-- Python `a or b` where `b` is a plain string (`url.database or "system"`). -/
def pyOrStr (o : Option String) (d : String) : String :=
  match o with
  | some s => if s = "" then d else s
  | Option.none => d

/-- Python `f"{x}"` on an optional string: `None` prints as `"None"`. -/
def fmtOpt : Option String → String
  | Option.none => "None"
  | some s => s

/-- Value of a hexadecimal digit character, as accepted by the percent
decoder of `urllib.parse.unquote`. -/
def hexDigit? (c : Char) : Option Nat :=
  if '0' ≤ c ∧ c ≤ '9' then some (c.toNat - '0'.toNat)
  else if 'a' ≤ c ∧ c ≤ 'f' then some (c.toNat - 'a'.toNat + 10)
  else if 'A' ≤ c ∧ c ≤ 'F' then some (c.toNat - 'A'.toNat + 10)
  else Option.none

/-- Character-level model of `urllib.parse.unquote_plus` (external runtime
function): `+` becomes a space and `%XX` percent escapes decode to the byte
`XX`; malformed escapes are kept verbatim. Recombination of multi-byte UTF-8
escape sequences into single characters is not modelled; no claim depends on
it, and both sides of every statement below use this same function. -/
def unquotePlusAux : List Char → List Char
  | [] => []
  | '+' :: rest => ' ' :: unquotePlusAux rest
  | '%' :: a :: b :: rest =>
      match hexDigit? a, hexDigit? b with
      | some ha, some hb => Char.ofNat (16 * ha + hb) :: unquotePlusAux rest
      | _, _ => '%' :: unquotePlusAux (a :: b :: rest)
  | c :: rest => c :: unquotePlusAux rest

/-- String wrapper around `unquotePlusAux`. -/
def unquote_plus (s : String) : String :=
  String.mk (unquotePlusAux s.data)

/-- Helper of `splitSlash`: the accumulator holds the current segment
reversed. -/
def splitSlashAux : List Char → List Char → List String
  | [], acc => [String.mk acc.reverse]
  | c :: rest, acc =>
      if c = '/' then String.mk acc.reverse :: splitSlashAux rest []
      else splitSlashAux rest (c :: acc)

/-- Model of Python `s.split("/")` (external runtime function): split on
every occurrence of `/`, keeping empty segments; the result is never the
empty list. -/
def splitSlash (s : String) : List String :=
  splitSlashAux s.data []

/-- The `host` value placed in `kwargs` (`dict(host=url.host)`, so a missing
host stores Python `None`). -/
def hostVal : Option String → ConnectArg
  | Option.none => ConnectArg.pyNone
  | some h => ConnectArg.str h

/-- Lines 115-119 of `dialect.py`: `kwargs = dict(host=url.host)` followed by
`if url.port: kwargs["port"] = url.port`. -/
def initialKwargs (url : URL) : Kwargs :=
  let kwargs : Kwargs := [("host", hostVal url.host)]
  match url.port with
  | some p => if p != 0 then setKV kwargs "port" (ConnectArg.nat p) else kwargs
  | Option.none => kwargs

/-- Line 121 of `dialect.py`: `db_parts = (url.database or "system").split("/")`. -/
def dbParts (url : URL) : List String :=
  splitSlash (pyOrStr url.database "system")

/-- Lines 121-128 of `dialect.py`: catalog/schema from the database segment,
`ValueError` on three or more parts. -/
def dbStage (url : URL) (kwargs : Kwargs) : Except PyErr Kwargs :=
  match dbParts url with
  | [c] => Except.ok (setKV kwargs "catalog" (ConnectArg.str (unquote_plus c)))
  | [c, s] =>
      Except.ok (setKV (setKV kwargs "catalog" (ConnectArg.str (unquote_plus c)))
        "schema" (ConnectArg.str (unquote_plus s)))
  | _ => Except.error (PyErr.valueError ("Unexpected database format " ++ fmtOpt url.database))

/-- Lines 130-131 of `dialect.py`: `if url.username: kwargs["user"] = unquote_plus(url.username)`. -/
def userStage (url : URL) (kwargs : Kwargs) : Kwargs :=
  if truthyS url.username then
    setKV kwargs "user" (ConnectArg.str (unquote_plus (url.username.getD "")))
  else kwargs

/-- Lines 133-136 of `dialect.py`: a password requires a (truthy) username and
yields `BasicAuthentication`. -/
def passwordStage (url : URL) (kwargs : Kwargs) : Except PyErr Kwargs :=
  if truthyS url.password then
    if !truthyS url.username then
      Except.error (PyErr.valueError "Username is required when specify password in connection URL")
    else
      Except.ok (setKV kwargs "auth" (ConnectArg.auth
        (Auth.basic (unquote_plus (url.username.getD "")) (unquote_plus (url.password.getD "")))))
  else Except.ok kwargs

/-- Lines 138-139 of `dialect.py`: `access_token` yields `JWTAuthentication`. -/
def tokenStage (url : URL) (kwargs : Kwargs) : Kwargs :=
  match qget url.query "access_token" with
  | some tok => setKV kwargs "auth" (ConnectArg.auth (Auth.jwt (unquote_plus tok)))
  | Option.none => kwargs

/-- Lines 141-142 of `dialect.py`: `cert` together with `key` yields
`CertificateAuthentication`. -/
def certStage (url : URL) (kwargs : Kwargs) : Kwargs :=
  match qget url.query "cert", qget url.query "key" with
  | some c, some k =>
      setKV kwargs "auth" (ConnectArg.auth (Auth.certificate (unquote_plus c) (unquote_plus k)))
  | _, _ => kwargs

/-- Lines 144-145 of `dialect.py`: `externalAuthentication` yields
`OAuth2Authentication`. -/
def oauthStage (url : URL) (kwargs : Kwargs) : Kwargs :=
  if (qget url.query "externalAuthentication").isSome then
    setKV kwargs "auth" (ConnectArg.auth Auth.oauth2)
  else kwargs

/-- Lines 147-150 of `dialect.py`: the `source` keyword, defaulting to
`"trino-sqlalchemy"`. -/
def sourceStage (url : URL) (kwargs : Kwargs) : Kwargs :=
  match qget url.query "source" with
  | some s => setKV kwargs "source" (ConnectArg.str (unquote_plus s))
  | Option.none => setKV kwargs "source" (ConnectArg.str "trino-sqlalchemy")

/-- One step of the repeated pattern of lines 152-173 of `dialect.py`:
`if key in url.query: kwargs[key] = json.loads(unquote_plus(url.query[key]))`. -/
def stepJson (loads : String → Except PyErr PyJson) (url : URL) (key : String)
    (kwargs : Kwargs) : Except PyErr Kwargs :=
  match qget url.query key with
  | Option.none => Except.ok kwargs
  | some v =>
      match loads (unquote_plus v) with
      | Except.error e => Except.error e
      | Except.ok j => Except.ok (setKV kwargs key (ConnectArg.jsonVal j))

/-- Python iteration over a JSON value (`tuple(x)` iterates `x`): arrays give
their elements, strings their characters, objects their keys, everything else
raises `TypeError`. -/
def pyIter : PyJson → Except PyErr (List PyJson)
  | PyJson.arr xs => Except.ok xs
  | PyJson.str s => Except.ok (s.data.map (fun c => PyJson.str (String.mk [c])))
  | PyJson.obj fs => Except.ok (fs.map (fun f => PyJson.str f.1))
  | _ => Except.error (PyErr.typeError "object is not iterable")

/-- `[tuple(ec) for ec in -]`: turn every element of a list into a tuple. -/
def tupleList : List PyJson → Except PyErr (List (List PyJson))
  | [] => Except.ok []
  | x :: xs =>
      match pyIter x with
      | Except.error e => Except.error e
      | Except.ok t =>
          match tupleList xs with
          | Except.error e => Except.error e
          | Except.ok ts => Except.ok (t :: ts)

/-- Lines 158-161 of `dialect.py`: the `extra_credential` keyword becomes a
list of tuples. -/
def ecStage (loads : String → Except PyErr PyJson) (url : URL) (kwargs : Kwargs) :
    Except PyErr Kwargs :=
  match qget url.query "extra_credential" with
  | Option.none => Except.ok kwargs
  | some v =>
      match loads (unquote_plus v) with
      | Except.error e => Except.error e
      | Except.ok j =>
          match pyIter j with
          | Except.error e => Except.error e
          | Except.ok items =>
              match tupleList items with
              | Except.error e => Except.error e
              | Except.ok ts => Except.ok (setKV kwargs "extra_credential" (ConnectArg.tuples ts))

/-- Lines 175-176 of `dialect.py`: the `roles` keyword; note that the source
applies `json.loads` to the raw query value, without `unquote_plus`. -/
def rolesStage (loads : String → Except PyErr PyJson) (url : URL) (kwargs : Kwargs) :
    Except PyErr Kwargs :=
  match qget url.query "roles" with
  | Option.none => Except.ok kwargs
  | some v =>
      match loads v with
      | Except.error e => Except.error e
      | Except.ok j => Except.ok (setKV kwargs "roles" (ConnectArg.jsonVal j))

/-- Sequencing of fallible statements (Python exception propagation). -/
def exBind {α β : Type} (x : Except PyErr α) (f : α → Except PyErr β) : Except PyErr β :=
  match x with
  | Except.error e => Except.error e
  | Except.ok a => f a

/-- Lines 152-176 of `dialect.py`: the sequence of JSON-valued keywords. -/
def jsonTail (loads : String → Except PyErr PyJson) (url : URL) (kwargs : Kwargs) :
    Except PyErr Kwargs :=
  exBind (stepJson loads url "session_properties" kwargs) (fun kw1 =>
  exBind (stepJson loads url "http_headers" kw1) (fun kw2 =>
  exBind (ecStage loads url kw2) (fun kw3 =>
  exBind (stepJson loads url "client_tags" kw3) (fun kw4 =>
  exBind (stepJson loads url "legacy_primitive_types" kw4) (fun kw5 =>
  exBind (stepJson loads url "legacy_prepared_statements" kw5) (fun kw6 =>
  exBind (stepJson loads url "verify" kw6) (fun kw7 =>
  rolesStage loads url kw7)))))))

/-- Lines 114-178 of `dialect.py`: `TrinoDialect.create_connect_args`. The
external `json.loads` is a parameter. Returns the positional-argument list
(always empty in the source) and the keyword dictionary, or the raised
exception. -/
def create_connect_args (loads : String → Except PyErr PyJson) (url : URL) :
    Except PyErr (List ConnectArg × Kwargs) :=
  exBind (dbStage url (initialKwargs url)) (fun kw1 =>
  exBind (passwordStage url (userStage url kw1)) (fun kw2 =>
  exBind (jsonTail loads url (sourceStage url (oauthStage url (certStage url (tokenStage url kw2))))) (fun kw3 =>
  Except.ok ([], kw3))))

/-- A concrete stand-in for the external `json.loads`, used to instantiate
witnesses at URLs whose query carries no JSON-valued keys. -/
def loadsStub : String → Except PyErr PyJson :=
  fun s => Except.ok (PyJson.str s)

/-- A query execution performed against the DBAPI connection: the SQL text
and the bound parameters (a parameter may be Python `None`). -/
structure ExecCall where
  query : String
  params : List (String × Option String)
deriving DecidableEq

/-- A result row: field name to value, accessed by attribute name in the
source (`record.column_name` etc.). -/
abbrev Row := List (String × PyVal)

/-- Attribute access on a row; rows produced by the modelled queries always
carry the accessed field. -/
def rowGet : Row → String → PyVal
  | [], _ => PyVal.none
  | (k', v) :: rest, k => if k' = k then v else rowGet rest k

/-- The external DBAPI connection: an oracle mapping a query and its bound
parameters to result rows (or a raised exception), plus the default schema
and catalog of the underlying `trino.dbapi.Connection`
(`_get_default_schema_name` / `_get_default_catalog_name` read them). -/
structure Connection where
  execute : String → List (String × Option String) → Except PyErr (List Row)
  defaultSchema : Option String
  defaultCatalog : Option String

/-- The query text of `has_table` (lines 396-403 of `dialect.py`, after
`dedent(...).strip()`). -/
def hasTableQuery : String :=
  "SELECT \"table_name\"\nFROM \"information_schema\".\"tables\"\nWHERE \"table_schema\" = :schema\n  AND \"table_name\" = :table"

/-- The query text of `_get_columns` (lines 187-199 of `dialect.py`, after
`dedent(...).strip()`); it orders by `ordinal_position` ascending. -/
def columnsQuery : String :=
  "SELECT\n    \"column_name\",\n    \"data_type\",\n    \"column_default\",\n    UPPER(\"is_nullable\") AS \"is_nullable\"\nFROM \"information_schema\".\"columns\"\nWHERE \"table_schema\" = :schema\n  AND \"table_name\" = :table\nORDER BY \"ordinal_position\" ASC"

/-- The query text of `get_table_names` (lines 266-273 of `dialect.py`). -/
def tablesQuery : String :=
  "SELECT \"table_name\"\nFROM \"information_schema\".\"tables\"\nWHERE \"table_schema\" = :schema\n  AND \"table_type\" = 'BASE TABLE'"

/-- The query text of `get_view_names` (lines 287-294 of `dialect.py`). -/
def viewsQuery : String :=
  "SELECT \"table_name\"\nFROM \"information_schema\".\"tables\"\nWHERE \"table_schema\" = :schema\n  AND \"table_type\" = 'VIEW'"

/-- The query text of the server version getter (line 414 of `dialect.py`). -/
def versionQuery : String := "SELECT version()"

/-- Lines 392-405 of `dialect.py`: `TrinoDialect.has_table`. Returns the
boolean together with the list of executed queries. -/
def has_table (c : Connection) (table : String) (schema : Option String) :
    Except PyErr Bool × List ExecCall :=
  match pyOrOpt schema c.defaultSchema with
  | Option.none => (Except.ok false, [])
  | some sch =>
      match c.execute hasTableQuery [("schema", some sch), ("table", some table)] with
      | Except.error e => (Except.error e, [⟨hasTableQuery, [("schema", some sch), ("table", some table)]⟩])
      | Except.ok rows => (Except.ok (!rows.isEmpty), [⟨hasTableQuery, [("schema", some sch), ("table", some table)]⟩])

/-- Python `x == "YES"` where `x` is an arbitrary runtime value: only equal
strings compare equal. -/
def pyEqStr (v : PyVal) (s : String) : Bool :=
  match v with
  | PyVal.str t => t == s
  | _ => false

/-- One element of the list returned by `get_columns` (lines 203-208 of
`dialect.py`). The `type` field goes through `datatype.parse_sqltype`, a
function of this repository that is not part of the given sources; it is
kept as the parameter `parse`. -/
structure ColumnInfo (T : Type) where
  name : PyVal
  type : T
  nullable : Bool
  default : PyVal

/-- Lines 203-208 of `dialect.py`: the dictionary built from one result row. -/
def mkColumn {T : Type} (parse : PyVal → T) (r : Row) : ColumnInfo T :=
  { name := rowGet r "column_name"
    type := parse (rowGet r "data_type")
    nullable := pyEqStr (rowGet r "is_nullable") "YES"
    default := rowGet r "column_default" }

/-- Lines 185-210 of `dialect.py`: `TrinoDialect._get_columns`. -/
def _get_columns {T : Type} (parse : PyVal → T) (c : Connection) (table : String)
    (schema : Option String) : Except PyErr (List (ColumnInfo T)) × List ExecCall :=
  match c.execute columnsQuery [("schema", pyOrOpt schema c.defaultSchema), ("table", some table)] with
  | Except.error e =>
      (Except.error e, [⟨columnsQuery, [("schema", pyOrOpt schema c.defaultSchema), ("table", some table)]⟩])
  | Except.ok rows =>
      (Except.ok (rows.map (mkColumn parse)),
        [⟨columnsQuery, [("schema", pyOrOpt schema c.defaultSchema), ("table", some table)]⟩])

/-- Lines 180-183 of `dialect.py`: `TrinoDialect.get_columns`. -/
def get_columns {T : Type} (parse : PyVal → T) (c : Connection) (table : String)
    (schema : Option String) : Except PyErr (List (ColumnInfo T)) × List ExecCall :=
  match has_table c table schema with
  | (Except.error e, log) => (Except.error e, log)
  | (Except.ok false, log) =>
      (Except.error (PyErr.noSuchTableError ("schema=" ++ fmtOpt schema ++ ", table=" ++ table)), log)
  | (Except.ok true, log) =>
      match _get_columns parse c table schema with
      | (r, log2) => (r, log ++ log2)

/-- Lines 262-275 of `dialect.py`: `TrinoDialect.get_table_names`. -/
def get_table_names (c : Connection) (schema : Option String) :
    Except PyErr (List PyVal) × List ExecCall :=
  match pyOrOpt schema c.defaultSchema with
  | Option.none => (Except.error (PyErr.noSuchTableError "schema is required"), [])
  | some sch =>
      match c.execute tablesQuery [("schema", some sch)] with
      | Except.error e => (Except.error e, [⟨tablesQuery, [("schema", some sch)]⟩])
      | Except.ok rows =>
          (Except.ok (rows.map (fun r => rowGet r "table_name")), [⟨tablesQuery, [("schema", some sch)]⟩])

/-- Lines 281-296 of `dialect.py`: `TrinoDialect.get_view_names`. -/
def get_view_names (c : Connection) (schema : Option String) :
    Except PyErr (List PyVal) × List ExecCall :=
  match pyOrOpt schema c.defaultSchema with
  | Option.none => (Except.error (PyErr.noSuchTableError "schema is required"), [])
  | some sch =>
      match c.execute viewsQuery [("schema", some sch)] with
      | Except.error e => (Except.error e, [⟨viewsQuery, [("schema", some sch)]⟩])
      | Except.ok rows =>
          (Except.ok (rows.map (fun r => rowGet r "table_name")), [⟨viewsQuery, [("schema", some sch)]⟩])

/-- A Python dictionary of runtime values (`get_pk_constraint`'s result). -/
abbrev PyDict := List (String × PyVal)

/-- Python `d.get(k)`: the value, or `None` when the key is missing. -/
def pyGet : PyDict → String → PyVal
  | [], _ => PyVal.none
  | (k', v) :: rest, k => if k' = k then v else pyGet rest k

/-- Lines 228-230 of `dialect.py`: `get_pk_constraint` returns a dummy and
executes no query. -/
def get_pk_constraint (c : Connection) (table : String) (schema : Option String) :
    PyDict × List ExecCall :=
  ([("name", PyVal.none), ("constrained_columns", PyVal.list [])], [])

/-- Lines 232-234 of `dialect.py`: `get_primary_keys` returns the
`constrained_columns` entry of the dummy constraint. -/
def get_primary_keys (c : Connection) (table : String) (schema : Option String) :
    PyVal × List ExecCall :=
  match get_pk_constraint c table schema with
  | (pk, log) => (pyGet pk "constrained_columns", log)

/-- Lines 236-240 of `dialect.py`: `get_foreign_keys` returns an empty list. -/
def get_foreign_keys (c : Connection) (table : String) (schema : Option String) :
    List PyDict × List ExecCall :=
  ([], [])

/-- Lines 277-279 of `dialect.py`: `get_temp_table_names` returns an empty list. -/
def get_temp_table_names (c : Connection) (schema : Option String) :
    List String × List ExecCall :=
  ([], [])

/-- Lines 298-300 of `dialect.py`: `get_temp_view_names` returns an empty list. -/
def get_temp_view_names (c : Connection) (schema : Option String) :
    List String × List ExecCall :=
  ([], [])

/-- Lines 336-338 of `dialect.py`: `get_sequence_names` returns an empty list. -/
def get_sequence_names (c : Connection) (schema : Option String) :
    List String × List ExecCall :=
  ([], [])

/-- Lines 340-344 of `dialect.py`: `get_unique_constraints` returns an empty list. -/
def get_unique_constraints (c : Connection) (table : String) (schema : Option String) :
    List PyDict × List ExecCall :=
  ([], [])

/-- Lines 346-350 of `dialect.py`: `get_check_constraints` returns an empty list. -/
def get_check_constraints (c : Connection) (table : String) (schema : Option String) :
    List PyDict × List ExecCall :=
  ([], [])

/-- Lines 407-409 of `dialect.py`: `has_sequence` returns `False`. -/
def has_sequence (c : Connection) (seqName : String) (schema : Option String) :
    Bool × List ExecCall :=
  (false, [])

/-- Python `res.scalar()`: first column of the first row, `None` when there
are no rows. -/
def scalar (rows : List Row) : PyVal :=
  match rows with
  | [] => PyVal.none
  | r :: _ =>
      match r with
      | [] => PyVal.none
      | (_, v) :: _ => v

/-- Lines 413-421 of `dialect.py`: the getter installed on the
`server_version_info` property. `Except.ok (some v)` models the one-element
tuple `(v,)`, `Except.ok none` models returning Python `None` after catching
`ProgrammingError`; other exceptions propagate. -/
def serverVersionGetter (c : Connection) : Unit → Except PyErr (Option PyVal) × List ExecCall :=
  fun _ =>
    match c.execute versionQuery [] with
    | Except.ok rows => (Except.ok (some (scalar rows)), [⟨versionQuery, []⟩])
    | Except.error (PyErr.programmingError m) => (Except.ok Option.none, [⟨versionQuery, []⟩])
    | Except.error e => (Except.error e, [⟨versionQuery, []⟩])

/-- Lines 411-424 of `dialect.py`: `_get_server_version_info` installs the
lazy property and performs no query itself; it is modelled as returning the
installed getter together with its own (empty) execution log. The property's
setter discards its value and is not modelled further. -/
def _get_server_version_info (c : Connection) :
    (Unit → Except PyErr (Option PyVal) × List ExecCall) × List ExecCall :=
  (serverVersionGetter c, [])

/-- Derived auxiliary values used to state the characterization of
`create_connect_args`. -/
def portVal : Option Nat → Option ConnectArg
  | some p => if p != 0 then some (ConnectArg.nat p) else Option.none
  | Option.none => Option.none

/-- The `user` entry produced by `create_connect_args`. -/
def userVal (url : URL) : Option ConnectArg :=
  if truthyS url.username then some (ConnectArg.str (unquote_plus (url.username.getD "")))
  else Option.none

/-- The `auth` entry after the query-parameter stages, given the entry left
by the password stage: later assignments override earlier ones. -/
def authAfterQuery (url : URL) (prev : Option ConnectArg) : Option ConnectArg :=
  if (qget url.query "externalAuthentication").isSome then some (ConnectArg.auth Auth.oauth2)
  else
    match qget url.query "cert", qget url.query "key" with
    | some c, some k =>
        some (ConnectArg.auth (Auth.certificate (unquote_plus c) (unquote_plus k)))
    | _, _ =>
        match qget url.query "access_token" with
        | some t => some (ConnectArg.auth (Auth.jwt (unquote_plus t)))
        | Option.none => prev

/-- The final `auth` entry produced by `create_connect_args`. -/
def expectedAuth (url : URL) : Option ConnectArg :=
  authAfterQuery url
    (if truthyS url.password then
      some (ConnectArg.auth (Auth.basic (unquote_plus (url.username.getD ""))
        (unquote_plus (url.password.getD ""))))
    else Option.none)

/-- The final `source` entry produced by `create_connect_args`. -/
def sourceVal (url : URL) : String :=
  match qget url.query "source" with
  | some s => unquote_plus s
  | Option.none => "trino-sqlalchemy"

theorem getKV_setKV (l : Kwargs) (a b : String) (v : ConnectArg) :
    getKV (setKV l a v) b = if a = b then some v else getKV l b := by
  induction l with
  | nil => simp [setKV, getKV]
  | cons hd tl ih =>
    obtain ⟨k0, v0⟩ := hd
    by_cases h0 : k0 = a
    · subst h0
      simp only [setKV, if_pos rfl, getKV]
      by_cases h1 : k0 = b
      · subst h1; simp [getKV]
      · simp [getKV, h1]
    · simp only [setKV, if_neg h0, getKV]
      by_cases h1 : k0 = b
      · subst h1
        have : ¬a = k0 := fun h => h0 h.symm
        simp [this]
      · simp [h1, ih]

theorem exBind_ok {α β : Type} {x : Except PyErr α} {f : α → Except PyErr β} {b : β}
    (h : exBind x f = Except.ok b) : ∃ a, x = Except.ok a ∧ f a = Except.ok b := by
  cases x with
  | error e => simp [exBind] at h
  | ok a => exact ⟨a, rfl, h⟩

theorem splitSlashAux_ne_nil (l : List Char) (acc : List Char) : splitSlashAux l acc ≠ [] := by
  induction l generalizing acc with
  | nil => simp [splitSlashAux]
  | cons c rest ih =>
    by_cases hc : c = '/' <;> simp [splitSlashAux, hc, ih]

theorem dbParts_ne_nil (url : URL) : dbParts url ≠ [] :=
  splitSlashAux_ne_nil _ _

theorem stepJson_pres {loads : String → Except PyErr PyJson} {url : URL} {key : String}
    {kw kw' : Kwargs} (h : stepJson loads url key kw = Except.ok kw') {b : String}
    (hb : b ≠ key) : getKV kw' b = getKV kw b := by
  unfold stepJson at h
  split at h
  · injection h with h; subst h; rfl
  · split at h
    · simp at h
    · injection h with h; subst h
      rw [getKV_setKV, if_neg (Ne.symm hb)]

theorem ecStage_pres {loads : String → Except PyErr PyJson} {url : URL}
    {kw kw' : Kwargs} (h : ecStage loads url kw = Except.ok kw') {b : String}
    (hb : b ≠ "extra_credential") : getKV kw' b = getKV kw b := by
  unfold ecStage at h
  split at h
  · injection h with h; subst h; rfl
  · split at h
    · simp at h
    · split at h
      · simp at h
      · split at h
        · simp at h
        · injection h with h; subst h
          rw [getKV_setKV, if_neg (Ne.symm hb)]

theorem rolesStage_pres {loads : String → Except PyErr PyJson} {url : URL}
    {kw kw' : Kwargs} (h : rolesStage loads url kw = Except.ok kw') {b : String}
    (hb : b ≠ "roles") : getKV kw' b = getKV kw b := by
  unfold rolesStage at h
  split at h
  · injection h with h; subst h; rfl
  · split at h
    · simp at h
    · injection h with h; subst h
      rw [getKV_setKV, if_neg (Ne.symm hb)]

theorem jsonTail_pres {loads : String → Except PyErr PyJson} {url : URL}
    {kw kw' : Kwargs} (h : jsonTail loads url kw = Except.ok kw') {b : String}
    (hb : b ∉ ["session_properties", "http_headers", "extra_credential", "client_tags",
      "legacy_primitive_types", "legacy_prepared_statements", "verify", "roles"]) :
    getKV kw' b = getKV kw b := by
  simp only [List.mem_cons, List.not_mem_nil, or_false, not_or] at hb
  obtain ⟨n1, n2, n3, n4, n5, n6, n7, n8⟩ := hb
  unfold jsonTail at h
  obtain ⟨kw1, h1, h⟩ := exBind_ok h
  obtain ⟨kw2, h2, h⟩ := exBind_ok h
  obtain ⟨kw3, h3, h⟩ := exBind_ok h
  obtain ⟨kw4, h4, h⟩ := exBind_ok h
  obtain ⟨kw5, h5, h⟩ := exBind_ok h
  obtain ⟨kw6, h6, h⟩ := exBind_ok h
  obtain ⟨kw7, h7, h⟩ := exBind_ok h
  rw [rolesStage_pres h n8, stepJson_pres h7 n7, stepJson_pres h6 n6, stepJson_pres h5 n5,
    stepJson_pres h4 n4, ecStage_pres h3 n3, stepJson_pres h2 n2, stepJson_pres h1 n1]

theorem getKV_initialKwargs (url : URL) (b : String) :
    getKV (initialKwargs url) b =
      if "host" = b then some (hostVal url.host)
      else if "port" = b then portVal url.port
      else Option.none := by
  unfold initialKwargs portVal
  cases hp : url.port with
  | none =>
    simp only [getKV]
    by_cases hb : "host" = b <;> simp [hb]
  | some p =>
    by_cases hb1 : "host" = b
    · subst hb1
      by_cases hz : (p != 0) = true <;> simp [hz, getKV_setKV, getKV]
    · by_cases hb2 : "port" = b
      · subst hb2
        by_cases hz : (p != 0) = true <;> simp [hz, getKV_setKV, getKV, hb1]
      · by_cases hz : (p != 0) = true <;> simp [hz, getKV_setKV, getKV, hb1, hb2]

theorem dbStage_ok {url : URL} {kw kw' : Kwargs} (h : dbStage url kw = Except.ok kw') :
    (∃ c, dbParts url = [c] ∧ kw' = setKV kw "catalog" (ConnectArg.str (unquote_plus c))) ∨
    (∃ c s, dbParts url = [c, s] ∧
      kw' = setKV (setKV kw "catalog" (ConnectArg.str (unquote_plus c)))
        "schema" (ConnectArg.str (unquote_plus s))) := by
  unfold dbStage at h
  rcases hp : dbParts url with _ | ⟨c, _ | ⟨s, _ | ⟨t, rest⟩⟩⟩ <;> rw [hp] at h
  · simp at h
  · left; exact ⟨c, rfl, by injection h with h; exact h.symm⟩
  · right; exact ⟨c, s, rfl, by injection h with h; exact h.symm⟩
  · simp at h

theorem dbStage_error {url : URL} (kw : Kwargs) (hlen : 2 < (dbParts url).length) :
    dbStage url kw =
      Except.error (PyErr.valueError ("Unexpected database format " ++ fmtOpt url.database)) := by
  unfold dbStage
  rcases hp : dbParts url with _ | ⟨c, _ | ⟨s, _ | ⟨t, rest⟩⟩⟩ <;> rw [hp] at hlen <;>
    simp at hlen ⊢

theorem getKV_userStage (url : URL) (kw : Kwargs) (b : String) (hb : b ≠ "user") :
    getKV (userStage url kw) b = getKV kw b := by
  unfold userStage
  by_cases ht : truthyS url.username
  · simp only [ht, if_pos]
    rw [getKV_setKV, if_neg (Ne.symm hb)]
  · simp [ht]

theorem getKV_userStage_user (url : URL) (kw : Kwargs) :
    getKV (userStage url kw) "user" = if truthyS url.username
      then some (ConnectArg.str (unquote_plus (url.username.getD "")))
      else getKV kw "user" := by
  unfold userStage
  by_cases ht : truthyS url.username
  · simp only [ht, if_pos]
    rw [getKV_setKV, if_pos rfl]
  · simp [ht]

theorem passwordStage_ok {url : URL} {kw kw' : Kwargs}
    (h : passwordStage url kw = Except.ok kw') :
    (getKV kw' "auth" = if truthyS url.password
        then some (ConnectArg.auth (Auth.basic (unquote_plus (url.username.getD ""))
          (unquote_plus (url.password.getD ""))))
        else getKV kw "auth") ∧
    (∀ b, b ≠ "auth" → getKV kw' b = getKV kw b) := by
  unfold passwordStage at h
  by_cases hp : truthyS url.password
  · simp only [hp, if_pos] at h
    by_cases hu : truthyS url.username
    · simp only [hu, Bool.not_true, Bool.false_eq_true, if_neg, if_false] at h
      injection h with h; subst h
      constructor
      · rw [getKV_setKV, if_pos rfl, if_pos hp]
      · intro b hb
        rw [getKV_setKV, if_neg (Ne.symm hb)]
    · simp only [hu, Bool.not_false, if_pos, if_true] at h
      simp at h
  · simp only [hp, if_neg, if_false] at h
    injection h with h; subst h
    simp [hp]

theorem passwordStage_error {url : URL} (kw : Kwargs) (hp : truthyS url.password = true)
    (hu : truthyS url.username = false) :
    passwordStage url kw =
      Except.error (PyErr.valueError "Username is required when specify password in connection URL") := by
  unfold passwordStage
  simp [hp, hu]

theorem getKV_authChain (url : URL) (kw : Kwargs) :
    getKV (oauthStage url (certStage url (tokenStage url kw))) "auth" =
      authAfterQuery url (getKV kw "auth") := by
  unfold oauthStage certStage tokenStage authAfterQuery
  cases he : qget url.query "externalAuthentication" <;>
    cases hc : qget url.query "cert" <;>
    cases hk : qget url.query "key" <;>
    cases ht : qget url.query "access_token" <;>
    simp [getKV_setKV]

theorem getKV_authChain_pres (url : URL) (kw : Kwargs) (b : String) (hb : b ≠ "auth") :
    getKV (oauthStage url (certStage url (tokenStage url kw))) b = getKV kw b := by
  unfold oauthStage certStage tokenStage
  cases he : qget url.query "externalAuthentication" <;>
    cases hc : qget url.query "cert" <;>
    cases hk : qget url.query "key" <;>
    cases ht : qget url.query "access_token" <;>
    simp [getKV_setKV, Ne.symm hb]

theorem getKV_sourceStage (url : URL) (kw : Kwargs) :
    getKV (sourceStage url kw) "source" = some (ConnectArg.str (sourceVal url)) := by
  unfold sourceStage sourceVal
  cases hs : qget url.query "source" <;> rw [getKV_setKV, if_pos rfl]

theorem getKV_sourceStage_pres (url : URL) (kw : Kwargs) (b : String) (hb : b ≠ "source") :
    getKV (sourceStage url kw) b = getKV kw b := by
  unfold sourceStage
  cases hs : qget url.query "source" <;> rw [getKV_setKV, if_neg (Ne.symm hb)]

/-- The list of query keys handled by the JSON tail of `create_connect_args`. -/
def jsonKeys : List String :=
  ["session_properties", "http_headers", "extra_credential", "client_tags",
    "legacy_primitive_types", "legacy_prepared_statements", "verify", "roles"]

theorem cca_ok_char (loads : String → Except PyErr PyJson) (url : URL)
    (args : List ConnectArg) (kwargs : Kwargs)
    (h : create_connect_args loads url = Except.ok (args, kwargs)) :
    args = [] ∧
    getKV kwargs "host" = some (hostVal url.host) ∧
    getKV kwargs "port" = portVal url.port ∧
    (∀ cpart, dbParts url = [cpart] →
        getKV kwargs "catalog" = some (ConnectArg.str (unquote_plus cpart)) ∧
        getKV kwargs "schema" = Option.none) ∧
    (∀ cpart spart, dbParts url = [cpart, spart] →
        getKV kwargs "catalog" = some (ConnectArg.str (unquote_plus cpart)) ∧
        getKV kwargs "schema" = some (ConnectArg.str (unquote_plus spart))) ∧
    getKV kwargs "user" = userVal url ∧
    getKV kwargs "auth" = expectedAuth url ∧
    getKV kwargs "source" = some (ConnectArg.str (sourceVal url)) ∧
    ((∃ cpart, dbParts url = [cpart]) ∨ (∃ cpart spart, dbParts url = [cpart, spart])) := by
  unfold create_connect_args at h
  obtain ⟨kw1, hdb, h⟩ := exBind_ok h
  obtain ⟨kw2, hpw, h⟩ := exBind_ok h
  obtain ⟨kw3, hjt, h⟩ := exBind_ok h
  simp only [Except.ok.injEq, Prod.mk.injEq] at h
  obtain ⟨ha, hk⟩ := h
  subst ha
  subst hk
  have hd := dbStage_ok hdb
  have hkw1_pres : ∀ b, b ≠ "catalog" → b ≠ "schema" →
      getKV kw1 b = getKV (initialKwargs url) b := by
    intro b hb1 hb2
    rcases hd with ⟨c, hc, hkw⟩ | ⟨c, s, hcs, hkw⟩ <;> subst hkw
    · rw [getKV_setKV, if_neg (Ne.symm hb1)]
    · rw [getKV_setKV, if_neg (Ne.symm hb2), getKV_setKV, if_neg (Ne.symm hb1)]
  have chain : ∀ b, b ≠ "auth" → b ≠ "source" → b ∉ jsonKeys →
      getKV kw3 b = getKV (userStage url kw1) b := by
    intro b h1 h2 h3
    rw [jsonTail_pres hjt h3, getKV_sourceStage_pres _ _ b h2,
      getKV_authChain_pres _ _ b h1, (passwordStage_ok hpw).2 b h1]
  refine ⟨rfl, ?_, ?_, ?_, ?_, ?_, ?_, ?_, ?_⟩
  · rw [chain "host" (by decide) (by decide) (by decide),
      getKV_userStage url kw1 "host" (by decide),
      hkw1_pres "host" (by decide) (by decide), getKV_initialKwargs]
    simp
  · rw [chain "port" (by decide) (by decide) (by decide),
      getKV_userStage url kw1 "port" (by decide),
      hkw1_pres "port" (by decide) (by decide), getKV_initialKwargs]
    simp
  · intro cpart hcp
    have hc3 : getKV kw3 "catalog" = getKV kw1 "catalog" := by
      rw [chain "catalog" (by decide) (by decide) (by decide),
        getKV_userStage url kw1 "catalog" (by decide)]
    have hs3 : getKV kw3 "schema" = getKV kw1 "schema" := by
      rw [chain "schema" (by decide) (by decide) (by decide),
        getKV_userStage url kw1 "schema" (by decide)]
    rcases hd with ⟨c, hc, hkw⟩ | ⟨c, s, hcs, hkw⟩
    · rw [hc] at hcp
      injection hcp with hceq _
      subst hceq
      subst hkw
      constructor
      · rw [hc3, getKV_setKV, if_pos rfl]
      · rw [hs3, getKV_setKV, if_neg (by decide), getKV_initialKwargs]
        simp
    · rw [hcs] at hcp
      simp at hcp
  · intro cpart spart hcp
    have hc3 : getKV kw3 "catalog" = getKV kw1 "catalog" := by
      rw [chain "catalog" (by decide) (by decide) (by decide),
        getKV_userStage url kw1 "catalog" (by decide)]
    have hs3 : getKV kw3 "schema" = getKV kw1 "schema" := by
      rw [chain "schema" (by decide) (by decide) (by decide),
        getKV_userStage url kw1 "schema" (by decide)]
    rcases hd with ⟨c, hc, hkw⟩ | ⟨c, s, hcs, hkw⟩
    · rw [hc] at hcp
      simp at hcp
    · rw [hcs] at hcp
      injection hcp with hceq htl
      injection htl with hseq _
      subst hceq
      subst hseq
      subst hkw
      constructor
      · rw [hc3, getKV_setKV, if_neg (by decide), getKV_setKV, if_pos rfl]
      · rw [hs3, getKV_setKV, if_pos rfl]
  · rw [chain "user" (by decide) (by decide) (by decide), getKV_userStage_user]
    unfold userVal
    by_cases ht : truthyS url.username
    · simp [ht]
    · simp only [ht, if_false, Bool.false_eq_true]
      rw [hkw1_pres "user" (by decide) (by decide), getKV_initialKwargs]
      simp
  · rw [jsonTail_pres hjt (by decide), getKV_sourceStage_pres _ _ "auth" (by decide),
      getKV_authChain, (passwordStage_ok hpw).1]
    unfold expectedAuth
    by_cases hp : truthyS url.password
    · simp [hp]
    · simp only [hp, if_false, Bool.false_eq_true]
      rw [getKV_userStage url kw1 "auth" (by decide),
        hkw1_pres "auth" (by decide) (by decide), getKV_initialKwargs]
      simp
  · rw [jsonTail_pres hjt (by decide), getKV_sourceStage]
  · rcases hd with ⟨c, hc, _⟩ | ⟨c, s, hcs, _⟩
    · exact Or.inl ⟨c, hc⟩
    · exact Or.inr ⟨c, s, hcs⟩

theorem cca_db_error (loads : String → Except PyErr PyJson) (url : URL)
    (hlen : 2 < (dbParts url).length) :
    create_connect_args loads url =
      Except.error (PyErr.valueError ("Unexpected database format " ++ fmtOpt url.database)) := by
  unfold create_connect_args
  rw [dbStage_error (initialKwargs url) hlen]
  rfl

theorem cca_password_error (loads : String → Except PyErr PyJson) (url : URL)
    (hp : truthyS url.password = true) (hu : truthyS url.username = false)
    (hlen : (dbParts url).length ≤ 2) :
    create_connect_args loads url =
      Except.error (PyErr.valueError "Username is required when specify password in connection URL") := by
  have hne := dbParts_ne_nil url
  unfold create_connect_args
  rcases hpp : dbParts url with _ | ⟨c, _ | ⟨s, rest⟩⟩
  · exact absurd hpp hne
  · have hdb : dbStage url (initialKwargs url) =
        Except.ok (setKV (initialKwargs url) "catalog" (ConnectArg.str (unquote_plus c))) := by
      unfold dbStage; rw [hpp]
    rw [hdb]
    simp only [exBind]
    rw [passwordStage_error _ hp hu]
  · have hrest : rest = [] := by
      have hzero : rest.length = 0 := by
        rw [hpp] at hlen
        simp only [List.length_cons] at hlen
        omega
      exact List.eq_nil_of_length_eq_zero hzero
    subst hrest
    have hdb : dbStage url (initialKwargs url) =
        Except.ok (setKV (setKV (initialKwargs url) "catalog" (ConnectArg.str (unquote_plus c)))
          "schema" (ConnectArg.str (unquote_plus s))) := by
      unfold dbStage; rw [hpp]
    rw [hdb]
    simp only [exBind]
    rw [passwordStage_error _ hp hu]

/-- C1 counterexample: the URL with the empty (but present) database segment
`""` refutes the claim as stated. Its database segment splits into the single
part `""`, so the claim requires `catalog` to be `unquote_plus "" = ""`; the
code instead applies Python truthiness (`url.database or "system"`) and
produces the catalog `"system"`. -/
theorem claim1_counterexample :
    (⟨some "h", Option.none, Option.none, Option.none, some "", []⟩ : URL).database = some "" ∧
    splitSlash "" = [""] ∧
    create_connect_args loadsStub ⟨some "h", Option.none, Option.none, Option.none, some "", []⟩ =
      Except.ok ([], [("host", ConnectArg.str "h"), ("catalog", ConnectArg.str "system"),
        ("source", ConnectArg.str "trino-sqlalchemy")]) ∧
    unquote_plus "" = "" ∧
    "system" ≠ "" :=
  ⟨rfl, rfl, rfl, rfl, by decide⟩

/-- C1 (amended): for every URL on which `create_connect_args` succeeds, the
segment `url.database or "system"` (so the default applies when the database
is absent or empty) is split on `/`: exactly one part yields only a
`catalog` entry, `unquote_plus`-decoded, and no `schema` entry; exactly two
parts yield `catalog` and `schema` entries, each `unquote_plus`-decoded. -/
theorem claim1_catalog_schema (loads : String → Except PyErr PyJson) (url : URL)
    (args : List ConnectArg) (kwargs : Kwargs)
    (h : create_connect_args loads url = Except.ok (args, kwargs)) :
    (∀ cpart, dbParts url = [cpart] →
        getKV kwargs "catalog" = some (ConnectArg.str (unquote_plus cpart)) ∧
        getKV kwargs "schema" = Option.none) ∧
    (∀ cpart spart, dbParts url = [cpart, spart] →
        getKV kwargs "catalog" = some (ConnectArg.str (unquote_plus cpart)) ∧
        getKV kwargs "schema" = some (ConnectArg.str (unquote_plus spart))) := by
  have hc := cca_ok_char loads url args kwargs h
  exact ⟨hc.2.2.2.1, hc.2.2.2.2.1⟩

/-- C1 witness: a concrete two-part database segment. -/
theorem claim1_witness :
    dbParts ⟨some "h", Option.none, Option.none, Option.none, some "cat/sch", []⟩ = ["cat", "sch"] ∧
    getKV [("host", ConnectArg.str "h"), ("catalog", ConnectArg.str "cat"),
      ("schema", ConnectArg.str "sch"), ("source", ConnectArg.str "trino-sqlalchemy")] "catalog" =
      some (ConnectArg.str (unquote_plus "cat")) ∧
    getKV [("host", ConnectArg.str "h"), ("catalog", ConnectArg.str "cat"),
      ("schema", ConnectArg.str "sch"), ("source", ConnectArg.str "trino-sqlalchemy")] "schema" =
      some (ConnectArg.str (unquote_plus "sch")) :=
  ⟨rfl,
    ((claim1_catalog_schema loadsStub
      ⟨some "h", Option.none, Option.none, Option.none, some "cat/sch", []⟩ []
      [("host", ConnectArg.str "h"), ("catalog", ConnectArg.str "cat"),
        ("schema", ConnectArg.str "sch"), ("source", ConnectArg.str "trino-sqlalchemy")]
      rfl).2 "cat" "sch" rfl).1,
    ((claim1_catalog_schema loadsStub
      ⟨some "h", Option.none, Option.none, Option.none, some "cat/sch", []⟩ []
      [("host", ConnectArg.str "h"), ("catalog", ConnectArg.str "cat"),
        ("schema", ConnectArg.str "sch"), ("source", ConnectArg.str "trino-sqlalchemy")]
      rfl).2 "cat" "sch" rfl).2⟩

/-- C2 counterexample: two concrete URLs refute the claim as stated. First, a
URL carrying the empty-string password and no username: the claim demands a
`ValueError`, but `if url.password:` is false for the empty string, so the
code succeeds. Second, a URL carrying password `"p"`, no username, and the
three-part database `"a/b/c"`: the code raises the database-format
`ValueError`, not the message the claim attaches to the missing-username
case. -/
theorem claim2_counterexample :
    (⟨some "h", Option.none, Option.none, some "", Option.none, []⟩ : URL).password = some "" ∧
    (⟨some "h", Option.none, Option.none, some "", Option.none, []⟩ : URL).username = Option.none ∧
    create_connect_args loadsStub ⟨some "h", Option.none, Option.none, some "", Option.none, []⟩ =
      Except.ok ([], [("host", ConnectArg.str "h"), ("catalog", ConnectArg.str "system"),
        ("source", ConnectArg.str "trino-sqlalchemy")]) ∧
    create_connect_args loadsStub ⟨some "h", Option.none, Option.none, some "p", some "a/b/c", []⟩ =
      Except.error (PyErr.valueError "Unexpected database format a/b/c") ∧
    "Unexpected database format a/b/c" ≠
      "Username is required when specify password in connection URL" :=
  ⟨rfl, rfl, rfl, rfl, by decide⟩

/-- C2 (amended): `create_connect_args` raises `ValueError`, returning no
connection parameters, in two cases: for every URL whose database segment
splits on `/` into more than two parts, and for every URL carrying a
non-empty password but no truthy username; in the latter case the message is
`Username is required when specify password in connection URL` provided the
database segment is well formed (at most two parts; otherwise the
database-format `ValueError`, raised first, takes precedence). -/
theorem claim2_value_errors (loads : String → Except PyErr PyJson) (url : URL) :
    (2 < (dbParts url).length →
      create_connect_args loads url =
        Except.error (PyErr.valueError ("Unexpected database format " ++ fmtOpt url.database))) ∧
    (truthyS url.password = true → truthyS url.username = false →
      (dbParts url).length ≤ 2 →
      create_connect_args loads url =
        Except.error (PyErr.valueError "Username is required when specify password in connection URL")) ∧
    (truthyS url.password = true → truthyS url.username = false →
      ∃ m, create_connect_args loads url = Except.error (PyErr.valueError m)) := by
  refine ⟨fun hlen => cca_db_error loads url hlen,
    fun hp hu hlen => cca_password_error loads url hp hu hlen,
    fun hp hu => ?_⟩
  by_cases hlen : 2 < (dbParts url).length
  · exact ⟨_, cca_db_error loads url hlen⟩
  · exact ⟨_, cca_password_error loads url hp hu (by omega)⟩

/-- C2 witness: a concrete URL with password `"p"` and no username. -/
theorem claim2_witness :
    create_connect_args loadsStub ⟨some "h", Option.none, Option.none, some "p", Option.none, []⟩ =
      Except.error (PyErr.valueError "Username is required when specify password in connection URL") :=
  (claim2_value_errors loadsStub
    ⟨some "h", Option.none, Option.none, some "p", Option.none, []⟩).2.1 rfl rfl (by decide)

/-- C3: the unsupported catalog features return empty or dummy results and
execute no query: the executed-query log of each method is empty, and the
returned values are the fixed constants of the source. -/
theorem claim3_unsupported (c : Connection) (t sname : String) (schema : Option String) :
    get_foreign_keys c t schema = ([], []) ∧
    get_sequence_names c schema = ([], []) ∧
    get_unique_constraints c t schema = ([], []) ∧
    get_check_constraints c t schema = ([], []) ∧
    get_temp_table_names c schema = ([], []) ∧
    get_temp_view_names c schema = ([], []) ∧
    get_pk_constraint c t schema =
      ([("name", PyVal.none), ("constrained_columns", PyVal.list [])], []) ∧
    get_primary_keys c t schema = (PyVal.list [], []) ∧
    has_sequence c sname schema = (false, []) :=
  ⟨rfl, rfl, rfl, rfl, rfl, rfl, rfl, rfl, rfl⟩

/-- C4 counterexample: the URL with port `0`, username `""` and password `""`
refutes the claim as stated, at a single concrete input. The URL carries a
port, a username and a password, yet the returned kwargs contain no `port`,
no `user` and no `auth` entry, because `if url.port:`, `if url.username:` and
`if url.password:` are all false under Python truthiness. -/
theorem claim4_counterexample :
    (⟨some "h", some 0, some "", some "", Option.none, []⟩ : URL).port = some 0 ∧
    (⟨some "h", some 0, some "", some "", Option.none, []⟩ : URL).username = some "" ∧
    (⟨some "h", some 0, some "", some "", Option.none, []⟩ : URL).password = some "" ∧
    create_connect_args loadsStub ⟨some "h", some 0, some "", some "", Option.none, []⟩ =
      Except.ok ([], [("host", ConnectArg.str "h"), ("catalog", ConnectArg.str "system"),
        ("source", ConnectArg.str "trino-sqlalchemy")]) ∧
    getKV [("host", ConnectArg.str "h"), ("catalog", ConnectArg.str "system"),
      ("source", ConnectArg.str "trino-sqlalchemy")] "port" = Option.none ∧
    getKV [("host", ConnectArg.str "h"), ("catalog", ConnectArg.str "system"),
      ("source", ConnectArg.str "trino-sqlalchemy")] "user" = Option.none ∧
    getKV [("host", ConnectArg.str "h"), ("catalog", ConnectArg.str "system"),
      ("source", ConnectArg.str "trino-sqlalchemy")] "auth" = Option.none :=
  ⟨rfl, rfl, rfl, rfl, rfl, rfl, rfl⟩

/-- C4 (amended): for every URL on which `create_connect_args` succeeds, the
kwargs map `host` to the URL's host; they contain `port` if and only if the
URL carries a nonzero port, mapped to that port; they contain `user` if and
only if the URL carries a non-empty username, mapped to its `unquote_plus`;
and when the URL carries a non-empty username and a non-empty password and
none of `access_token`, `cert` together with `key`, or
`externalAuthentication` occur among the query parameters, `auth` is
`BasicAuthentication` of the percent-decoded username and password. -/
theorem claim4_host_port_user_auth (loads : String → Except PyErr PyJson) (url : URL)
    (args : List ConnectArg) (kwargs : Kwargs)
    (h : create_connect_args loads url = Except.ok (args, kwargs)) :
    getKV kwargs "host" = some (hostVal url.host) ∧
    getKV kwargs "port" = portVal url.port ∧
    getKV kwargs "user" = userVal url ∧
    (∀ u p, url.username = some u → u ≠ "" → url.password = some p → p ≠ "" →
      qget url.query "access_token" = Option.none →
      ¬((qget url.query "cert").isSome ∧ (qget url.query "key").isSome) →
      qget url.query "externalAuthentication" = Option.none →
      getKV kwargs "auth" =
        some (ConnectArg.auth (Auth.basic (unquote_plus u) (unquote_plus p)))) := by
  have hc := cca_ok_char loads url args kwargs h
  refine ⟨hc.2.1, hc.2.2.1, hc.2.2.2.2.2.1, ?_⟩
  intro u p hu hune hp hpne hat hck hea
  have htp : truthyS url.password = true := by
    rw [hp]
    simp [truthyS, hpne]
  rw [hc.2.2.2.2.2.2.1]
  unfold expectedAuth authAfterQuery
  rw [hea, hat, htp, hu, hp]
  rcases hcq : qget url.query "cert" with _ | cv <;>
      rcases hkq : qget url.query "key" with _ | kv
  · simp
  · simp
  · simp
  · exact absurd ⟨by rw [hcq]; rfl, by rw [hkq]; rfl⟩ hck

/-- C4 witness: a concrete URL with host, port, username and password. -/
theorem claim4_witness :
    create_connect_args loadsStub ⟨some "h", some 8080, some "u", some "p", Option.none, []⟩ =
      Except.ok ([], [("host", ConnectArg.str "h"), ("port", ConnectArg.nat 8080),
        ("catalog", ConnectArg.str "system"), ("user", ConnectArg.str "u"),
        ("auth", ConnectArg.auth (Auth.basic "u" "p")),
        ("source", ConnectArg.str "trino-sqlalchemy")]) ∧
    getKV [("host", ConnectArg.str "h"), ("port", ConnectArg.nat 8080),
      ("catalog", ConnectArg.str "system"), ("user", ConnectArg.str "u"),
      ("auth", ConnectArg.auth (Auth.basic "u" "p")),
      ("source", ConnectArg.str "trino-sqlalchemy")] "port" = portVal (some 8080) ∧
    getKV [("host", ConnectArg.str "h"), ("port", ConnectArg.nat 8080),
      ("catalog", ConnectArg.str "system"), ("user", ConnectArg.str "u"),
      ("auth", ConnectArg.auth (Auth.basic "u" "p")),
      ("source", ConnectArg.str "trino-sqlalchemy")] "auth" =
      some (ConnectArg.auth (Auth.basic (unquote_plus "u") (unquote_plus "p"))) :=
  ⟨rfl,
    (claim4_host_port_user_auth loadsStub
      ⟨some "h", some 8080, some "u", some "p", Option.none, []⟩ []
      [("host", ConnectArg.str "h"), ("port", ConnectArg.nat 8080),
        ("catalog", ConnectArg.str "system"), ("user", ConnectArg.str "u"),
        ("auth", ConnectArg.auth (Auth.basic "u" "p")),
        ("source", ConnectArg.str "trino-sqlalchemy")] rfl).2.1,
    (claim4_host_port_user_auth loadsStub
      ⟨some "h", some 8080, some "u", some "p", Option.none, []⟩ []
      [("host", ConnectArg.str "h"), ("port", ConnectArg.nat 8080),
        ("catalog", ConnectArg.str "system"), ("user", ConnectArg.str "u"),
        ("auth", ConnectArg.auth (Auth.basic "u" "p")),
        ("source", ConnectArg.str "trino-sqlalchemy")] rfl).2.2.2 "u" "p" rfl
      (by decide) rfl (by decide) rfl (by decide) rfl⟩

/-- C5: server-version detection is lazy. `_get_server_version_info` itself
executes no query (its execution log is empty) and installs a getter; the
getter, once invoked, executes exactly the query `SELECT version()` and
returns the one-element tuple of the scalar result, or Python `None` when
the query raises `ProgrammingError`. -/
theorem claim5_lazy_version (c : Connection) :
    (_get_server_version_info c).2 = [] ∧
    (∀ rows, c.execute versionQuery [] = Except.ok rows →
      (_get_server_version_info c).1 () =
        (Except.ok (some (scalar rows)), [⟨versionQuery, []⟩])) ∧
    (∀ m, c.execute versionQuery [] = Except.error (PyErr.programmingError m) →
      (_get_server_version_info c).1 () = (Except.ok Option.none, [⟨versionQuery, []⟩])) := by
  refine ⟨rfl, ?_, ?_⟩
  · intro rows hr
    show serverVersionGetter c () = _
    unfold serverVersionGetter
    rw [hr]
  · intro m hm
    show serverVersionGetter c () = _
    unfold serverVersionGetter
    rw [hm]

/-- A concrete connection whose oracle answers the version query, used by the
C5 witness. -/
def connVersion : Connection :=
  ⟨fun q _ => if q = versionQuery then Except.ok [[("v", PyVal.str "428")]] else Except.ok [],
    Option.none, Option.none⟩

/-- C5 witness: the installed getter at a concrete connection. -/
theorem claim5_witness :
    (_get_server_version_info connVersion).2 = [] ∧
    connVersion.execute versionQuery [] = Except.ok [[("v", PyVal.str "428")]] ∧
    (_get_server_version_info connVersion).1 () =
      (Except.ok (some (PyVal.str "428")), [⟨versionQuery, []⟩]) :=
  ⟨(claim5_lazy_version connVersion).1, rfl,
    (claim5_lazy_version connVersion).2.1 [[("v", PyVal.str "428")]] rfl⟩

/-- C6: `get_columns` raises `NoSuchTableError` when `has_table` is false;
otherwise it returns one dictionary per row of the fixed
`information_schema.columns` query (whose text orders by `ordinal_position`
ascending) for the effective schema and table, where `nullable` holds
exactly when the row's `is_nullable` equals `"YES"` and `default` is the
row's `column_default`. -/
theorem claim6_get_columns {T : Type} (parse : PyVal → T) (c : Connection)
    (table : String) (schema : Option String) :
    ((has_table c table schema).1 = Except.ok false →
      (get_columns parse c table schema).1 =
        Except.error (PyErr.noSuchTableError
          ("schema=" ++ fmtOpt schema ++ ", table=" ++ table))) ∧
    (∀ rows, (has_table c table schema).1 = Except.ok true →
      c.execute columnsQuery
        [("schema", pyOrOpt schema c.defaultSchema), ("table", some table)] = Except.ok rows →
      (get_columns parse c table schema).1 = Except.ok (rows.map (mkColumn parse))) ∧
    (∀ r, (mkColumn parse r).nullable = true ↔ rowGet r "is_nullable" = PyVal.str "YES") ∧
    (∀ r, (mkColumn parse r).default = rowGet r "column_default") ∧
    (∃ pre, columnsQuery = pre ++ "ORDER BY \"ordinal_position\" ASC") := by
  refine ⟨?_, ?_, ?_, fun r => rfl, ?_⟩
  · intro h1
    rcases hht : has_table c table schema with ⟨res, log⟩
    rw [hht] at h1
    cases res with
    | error e => simp at h1
    | ok bv =>
      simp only [Except.ok.injEq] at h1
      subst h1
      unfold get_columns
      rw [hht]
  · intro rows h1 h2
    rcases hht : has_table c table schema with ⟨res, log⟩
    rw [hht] at h1
    cases res with
    | error e => simp at h1
    | ok bv =>
      simp only [Except.ok.injEq] at h1
      subst h1
      unfold get_columns
      rw [hht]
      unfold _get_columns
      rw [h2]
  · intro r
    cases hv : rowGet r "is_nullable" <;> simp [mkColumn, pyEqStr, hv]
  · exact ⟨"SELECT\n    \"column_name\",\n    \"data_type\",\n    \"column_default\",\n    UPPER(\"is_nullable\") AS \"is_nullable\"\nFROM \"information_schema\".\"columns\"\nWHERE \"table_schema\" = :schema\n  AND \"table_name\" = :table\n", rfl⟩

/-- A concrete row of the columns query, used by the C6 witness. -/
def rowW6 : Row :=
  [("column_name", PyVal.str "id"), ("data_type", PyVal.str "integer"),
    ("column_default", PyVal.none), ("is_nullable", PyVal.str "YES")]

/-- A concrete connection whose oracle answers both the `has_table` query and
the columns query, used by the C6 witness. -/
def connW6 : Connection :=
  ⟨fun q _ => if q = columnsQuery then Except.ok [rowW6]
    else Except.ok [[("table_name", PyVal.str "t")]],
    Option.none, Option.none⟩

/-- C6 witness: a concrete table lookup through `get_columns`. -/
theorem claim6_witness :
    (has_table connW6 "t" (some "s")).1 = Except.ok true ∧
    connW6.execute columnsQuery
      [("schema", pyOrOpt (some "s") connW6.defaultSchema), ("table", some "t")] =
      Except.ok [rowW6] ∧
    (get_columns (fun v => v) connW6 "t" (some "s")).1 =
      Except.ok [mkColumn (fun v => v) rowW6] :=
  ⟨rfl, rfl,
    (claim6_get_columns (fun v => v) connW6 "t" (some "s")).2.1 [rowW6] rfl rfl⟩

/-- A connection with no rows and no default schema, used by the C7
counterexample. -/
def connE : Connection := ⟨fun _ _ => Except.ok [], Option.none, Option.none⟩

/-- C7 counterexample: at the given schema `""` (present, so not `None`) on a
connection without a default schema, the claim as stated requires
`get_table_names` and `get_view_names` to return the query's table names;
the code instead raises `NoSuchTableError`, because `schema or default` is
falsy for the empty string. -/
theorem claim7_counterexample :
    (some "" ≠ (Option.none : Option String)) ∧
    connE.defaultSchema = Option.none ∧
    get_table_names connE (some "") =
      (Except.error (PyErr.noSuchTableError "schema is required"), []) ∧
    get_view_names connE (some "") =
      (Except.error (PyErr.noSuchTableError "schema is required"), []) :=
  ⟨by simp, rfl, rfl, rfl⟩

/-- C7 (amended): `get_table_names` and `get_view_names` raise
`NoSuchTableError` exactly when the effective schema — the given schema if
truthy, else the connection's default schema — is missing (so also for an
empty given schema); otherwise each returns exactly the `table_name` values
produced by the connection for its fixed `information_schema.tables` query,
restricted to table type `BASE TABLE` respectively `VIEW`. -/
theorem claim7_table_view_names (c : Connection) (schema : Option String) :
    (pyOrOpt schema c.defaultSchema = Option.none →
      get_table_names c schema =
        (Except.error (PyErr.noSuchTableError "schema is required"), []) ∧
      get_view_names c schema =
        (Except.error (PyErr.noSuchTableError "schema is required"), [])) ∧
    (∀ sch rows, pyOrOpt schema c.defaultSchema = some sch →
      c.execute tablesQuery [("schema", some sch)] = Except.ok rows →
      (get_table_names c schema).1 = Except.ok (rows.map (fun r => rowGet r "table_name"))) ∧
    (∀ sch rows, pyOrOpt schema c.defaultSchema = some sch →
      c.execute viewsQuery [("schema", some sch)] = Except.ok rows →
      (get_view_names c schema).1 = Except.ok (rows.map (fun r => rowGet r "table_name"))) ∧
    (∃ pre, tablesQuery = pre ++ "'BASE TABLE'") ∧
    (∃ pre, viewsQuery = pre ++ "'VIEW'") := by
  refine ⟨?_, ?_, ?_,
    ⟨"SELECT \"table_name\"\nFROM \"information_schema\".\"tables\"\nWHERE \"table_schema\" = :schema\n  AND \"table_type\" = ", rfl⟩,
    ⟨"SELECT \"table_name\"\nFROM \"information_schema\".\"tables\"\nWHERE \"table_schema\" = :schema\n  AND \"table_type\" = ", rfl⟩⟩
  · intro h0
    unfold get_table_names get_view_names
    rw [h0]
    exact ⟨rfl, rfl⟩
  · intro sch rows h1 h2
    unfold get_table_names
    rw [h1]
    dsimp only
    rw [h2]
  · intro sch rows h1 h2
    unfold get_view_names
    rw [h1]
    dsimp only
    rw [h2]

/-- A concrete connection with a default schema and one table row, used by
the C7 witness. -/
def connW7 : Connection :=
  ⟨fun _ _ => Except.ok [[("table_name", PyVal.str "t1")]], some "dflt", Option.none⟩

/-- C7 witness: table names through the default schema of the connection. -/
theorem claim7_witness :
    pyOrOpt Option.none connW7.defaultSchema = some "dflt" ∧
    connW7.execute tablesQuery [("schema", some "dflt")] =
      Except.ok [[("table_name", PyVal.str "t1")]] ∧
    (get_table_names connW7 Option.none).1 = Except.ok [PyVal.str "t1"] :=
  ⟨rfl, rfl,
    (claim7_table_view_names connW7 Option.none).2.1 "dflt"
      [[("table_name", PyVal.str "t1")]] rfl rfl⟩

/-- C8: `create_connect_args` is deterministic — it is a pure function of
the URL (and of the external `json.loads` collaborator), so equal URLs give
equal results; no other state enters the embedding. -/
theorem claim8_deterministic (loads : String → Except PyErr PyJson) (u1 u2 : URL)
    (h : u1 = u2) :
    create_connect_args loads u1 = create_connect_args loads u2 := by
  rw [h]

/-- C8 witness: determinism at a concrete URL. -/
theorem claim8_witness :
    (⟨some "h", Option.none, Option.none, Option.none, Option.none, []⟩ : URL) =
      ⟨some "h", Option.none, Option.none, Option.none, Option.none, []⟩ ∧
    create_connect_args loadsStub ⟨some "h", Option.none, Option.none, Option.none, Option.none, []⟩ =
      create_connect_args loadsStub ⟨some "h", Option.none, Option.none, Option.none, Option.none, []⟩ :=
  ⟨rfl, claim8_deterministic loadsStub _ _ rfl⟩

/-- C9: whenever `create_connect_args` succeeds, the `auth` entry equals
`expectedAuth`, the fixed later-assignment-overrides-earlier precedence:
`externalAuthentication` (OAuth2) over `cert` plus `key` (Certificate) over
`access_token` (JWT) over truthy username-plus-password (Basic). -/
theorem claim9_auth_precedence (loads : String → Except PyErr PyJson) (url : URL)
    (args : List ConnectArg) (kwargs : Kwargs)
    (h : create_connect_args loads url = Except.ok (args, kwargs)) :
    getKV kwargs "auth" = expectedAuth url :=
  (cca_ok_char loads url args kwargs h).2.2.2.2.2.2.1

/-- C9 witness: with all four authentication inputs present, OAuth2 wins. -/
theorem claim9_witness :
    create_connect_args loadsStub
      ⟨some "h", Option.none, some "u", some "p", Option.none,
        [("access_token", "tok"), ("cert", "c1"), ("key", "k1"),
          ("externalAuthentication", "1")]⟩ =
      Except.ok ([], [("host", ConnectArg.str "h"), ("catalog", ConnectArg.str "system"),
        ("user", ConnectArg.str "u"), ("auth", ConnectArg.auth Auth.oauth2),
        ("source", ConnectArg.str "trino-sqlalchemy")]) ∧
    getKV [("host", ConnectArg.str "h"), ("catalog", ConnectArg.str "system"),
      ("user", ConnectArg.str "u"), ("auth", ConnectArg.auth Auth.oauth2),
      ("source", ConnectArg.str "trino-sqlalchemy")] "auth" =
      expectedAuth ⟨some "h", Option.none, some "u", some "p", Option.none,
        [("access_token", "tok"), ("cert", "c1"), ("key", "k1"),
          ("externalAuthentication", "1")]⟩ ∧
    expectedAuth ⟨some "h", Option.none, some "u", some "p", Option.none,
      [("access_token", "tok"), ("cert", "c1"), ("key", "k1"),
        ("externalAuthentication", "1")]⟩ = some (ConnectArg.auth Auth.oauth2) :=
  ⟨rfl,
    claim9_auth_precedence loadsStub
      ⟨some "h", Option.none, some "u", some "p", Option.none,
        [("access_token", "tok"), ("cert", "c1"), ("key", "k1"),
          ("externalAuthentication", "1")]⟩ []
      [("host", ConnectArg.str "h"), ("catalog", ConnectArg.str "system"),
        ("user", ConnectArg.str "u"), ("auth", ConnectArg.auth Auth.oauth2),
        ("source", ConnectArg.str "trino-sqlalchemy")] rfl,
    rfl⟩

/-- C10: whenever `create_connect_args` succeeds, the positional arguments
are empty and the kwargs always contain `host`, `catalog` and `source`; with
no database segment the catalog is `system`, and with no `source` query
parameter the source is `trino-sqlalchemy`. -/
theorem claim10_always_present (loads : String → Except PyErr PyJson) (url : URL)
    (args : List ConnectArg) (kwargs : Kwargs)
    (h : create_connect_args loads url = Except.ok (args, kwargs)) :
    args = [] ∧
    (getKV kwargs "host").isSome = true ∧
    (getKV kwargs "catalog").isSome = true ∧
    (getKV kwargs "source").isSome = true ∧
    (url.database = Option.none → getKV kwargs "catalog" = some (ConnectArg.str "system")) ∧
    (qget url.query "source" = Option.none →
      getKV kwargs "source" = some (ConnectArg.str "trino-sqlalchemy")) := by
  obtain ⟨ha, hh, hp, h1, h2, hu, hau, hs, hdisj⟩ := cca_ok_char loads url args kwargs h
  refine ⟨ha, by rw [hh]; rfl, ?_, by rw [hs]; rfl, ?_, ?_⟩
  · rcases hdisj with ⟨c, hc1⟩ | ⟨c, s, hc2⟩
    · rw [(h1 c hc1).1]; rfl
    · rw [(h2 c s hc2).1]; rfl
  · intro hdb
    have hparts : dbParts url = ["system"] := by
      unfold dbParts
      rw [hdb]
      rfl
    rw [(h1 "system" hparts).1]
    rfl
  · intro hsrc
    rw [hs]
    unfold sourceVal
    rw [hsrc]

/-- C10 witness: a minimal URL with neither database nor query parameters. -/
theorem claim10_witness :
    create_connect_args loadsStub ⟨some "h", Option.none, Option.none, Option.none, Option.none, []⟩ =
      Except.ok ([], [("host", ConnectArg.str "h"), ("catalog", ConnectArg.str "system"),
        ("source", ConnectArg.str "trino-sqlalchemy")]) ∧
    (getKV [("host", ConnectArg.str "h"), ("catalog", ConnectArg.str "system"),
      ("source", ConnectArg.str "trino-sqlalchemy")] "catalog").isSome = true ∧
    getKV [("host", ConnectArg.str "h"), ("catalog", ConnectArg.str "system"),
      ("source", ConnectArg.str "trino-sqlalchemy")] "catalog" =
      some (ConnectArg.str "system") ∧
    getKV [("host", ConnectArg.str "h"), ("catalog", ConnectArg.str "system"),
      ("source", ConnectArg.str "trino-sqlalchemy")] "source" =
      some (ConnectArg.str "trino-sqlalchemy") :=
  ⟨rfl,
    (claim10_always_present loadsStub
      ⟨some "h", Option.none, Option.none, Option.none, Option.none, []⟩ []
      [("host", ConnectArg.str "h"), ("catalog", ConnectArg.str "system"),
        ("source", ConnectArg.str "trino-sqlalchemy")] rfl).2.2.1,
    (claim10_always_present loadsStub
      ⟨some "h", Option.none, Option.none, Option.none, Option.none, []⟩ []
      [("host", ConnectArg.str "h"), ("catalog", ConnectArg.str "system"),
        ("source", ConnectArg.str "trino-sqlalchemy")] rfl).2.2.2.2.1 rfl,
    (claim10_always_present loadsStub
      ⟨some "h", Option.none, Option.none, Option.none, Option.none, []⟩ []
      [("host", ConnectArg.str "h"), ("catalog", ConnectArg.str "system"),
        ("source", ConnectArg.str "trino-sqlalchemy")] rfl).2.2.2.2.2 rfl⟩
